import Mathlib

set_option autoImplicit false

namespace ProyectoBeFe

/-!
Shallow embedding of the browser-side authentication client of the
repository (the `fe/` React application): the request/response data shapes
of `types/auth.ts`, the sessionStorage-backed session state and the actions
of `context/AuthContext.tsx`, the request and response interceptors of
`api/axios.ts`, the route guard `components/ProtectedRoute.tsx`, and the
client-side password validators of the Register / ChangePassword /
ResetPassword pages.

Network calls are modelled by passing the outcome each HTTP call would have
as an explicit `Except` argument; each action also returns the ordered trace
of the API calls it actually issued and of its writes to the `isLoading`
flag, so that "performs no network request" and "sets isLoading to false
exactly once" are statable.
-/

/-! ### Data shapes, from `fe/src/types/auth.ts` -/

/-- `RegisterRequest` of `types/auth.ts`. -/
structure RegisterRequest where
  email : String
  full_name : String
  password : String
deriving DecidableEq, Repr

/-- `LoginRequest` of `types/auth.ts`. -/
structure LoginRequest where
  email : String
  password : String
deriving DecidableEq, Repr

/-- `ChangePasswordRequest` of `types/auth.ts`. -/
structure ChangePasswordRequest where
  current_password : String
  new_password : String
deriving DecidableEq, Repr

/-- `ForgotPasswordRequest` of `types/auth.ts`. -/
structure ForgotPasswordRequest where
  email : String
deriving DecidableEq, Repr

/-- `ResetPasswordRequest` of `types/auth.ts`. -/
structure ResetPasswordRequest where
  token : String
  new_password : String
deriving DecidableEq, Repr

/-- `RefreshTokenRequest` of `types/auth.ts`. -/
structure RefreshTokenRequest where
  refresh_token : String
deriving DecidableEq, Repr

/-- `UserResponse` of `types/auth.ts`. -/
structure UserResponse where
  id : String
  email : String
  full_name : String
  is_active : Bool
  created_at : String
  updated_at : String
deriving DecidableEq, Repr

/-- `TokenResponse` of `types/auth.ts`. -/
structure TokenResponse where
  access_token : String
  refresh_token : String
  token_type : String
deriving DecidableEq, Repr

/-- `MessageResponse` of `types/auth.ts`. -/
structure MessageResponse where
  message : String
deriving DecidableEq, Repr

/-- A failed HTTP call as the client code observes it: an error value
carrying a message. -/
structure ApiError where
  message : String
deriving DecidableEq, Repr

deriving instance DecidableEq for Except

/-! ### The browser sessionStorage, as the auth code uses it

The auth client reads and writes exactly two keys, `"access_token"` and
`"refresh_token"`; the store is modelled by those two cells, with the
string-keyed `getItem` / `setItem` / `removeItem` interface of the source. -/

/-- The two sessionStorage entries the auth client uses. `none` means the
key is absent (JavaScript `getItem` returns `null`). -/
structure SessionStorage where
  accessEntry : Option String
  refreshEntry : Option String
deriving DecidableEq, Repr

/-- `sessionStorage.getItem key`. -/
def SessionStorage.getItem (s : SessionStorage) (key : String) : Option String :=
  if key = "access_token" then s.accessEntry
  else if key = "refresh_token" then s.refreshEntry
  else none

/-- `sessionStorage.setItem key v` (restricted to the two auth keys). -/
def SessionStorage.setItem (s : SessionStorage) (key v : String) : SessionStorage :=
  if key = "access_token" then { s with accessEntry := some v }
  else if key = "refresh_token" then { s with refreshEntry := some v }
  else s

/-- `sessionStorage.removeItem key` (restricted to the two auth keys). -/
def SessionStorage.removeItem (s : SessionStorage) (key : String) : SessionStorage :=
  if key = "access_token" then { s with accessEntry := none }
  else if key = "refresh_token" then { s with refreshEntry := none }
  else s

/-- JavaScript truthiness of a nullable string: `null` and `""` are falsy,
every other string is truthy.  This is the test `if (token)` and the
coercion `!!accessToken` perform in the source. -/
def jsTruthy : Option String → Bool
  | none => false
  | some s => !s.isEmpty

/-! ### Client session state, from `context/AuthContext.tsx` -/

/-- The React state held by `AuthProvider`: `user`, `accessToken`,
`refreshToken`, `isLoading`, plus the sessionStorage the provider reads and
writes. -/
structure AuthState where
  user : Option UserResponse
  accessToken : Option String
  refreshToken : Option String
  isLoading : Bool
  storage : SessionStorage
deriving DecidableEq, Repr

/-- The HTTP calls the client can issue, named after the functions of
`fe/src/api/auth.ts` that perform them. -/
inductive ApiCall where
  | registerUser (data : RegisterRequest)
  | loginUser (data : LoginRequest)
  | refreshToken (data : RefreshTokenRequest)
  | changePassword (data : ChangePasswordRequest)
  | forgotPassword (data : ForgotPasswordRequest)
  | resetPassword (data : ResetPasswordRequest)
  | getMe
deriving DecidableEq, Repr

/-- An observable event of a client action: an API call being issued, or a
write to the `isLoading` flag. -/
inductive Ev where
  | api (c : ApiCall)
  | setIsLoading (b : Bool)
deriving DecidableEq, Repr

/-- Whether an event is an API call. -/
def Ev.isApi : Ev → Bool
  | .api _ => true
  | .setIsLoading _ => false

/-- Whether a trace contains a call to the refresh endpoint
(`POST /api/v1/auth/refresh`). -/
def traceCallsRefresh (tr : List Ev) : Bool :=
  tr.any fun ev =>
    match ev with
    | .api (.refreshToken _) => true
    | _ => false

/-- Result of running an async client action: the promise outcome, the final
provider state, and the trace of events the action produced. -/
structure ActionOut (α : Type) where
  result : Except ApiError α
  state : AuthState
  trace : List Ev
deriving Repr

/-! ### Actions of `AuthProvider` (`context/AuthContext.tsx`)

Each action takes the outcome every HTTP call it might perform would have,
as an `Except` argument, and the current state. -/

/-- `saveTokens` of `AuthContext.tsx`: writes both tokens to sessionStorage
and mirrors them in the React state. -/
def saveTokens (st : AuthState) (access refresh : String) : AuthState :=
  { st with
    storage := (st.storage.setItem "access_token" access).setItem "refresh_token" refresh
    accessToken := some access
    refreshToken := some refresh }

/-- `clearAuth` of `AuthContext.tsx`: removes both sessionStorage entries and
nulls out the tokens and the cached user. -/
def clearAuth (st : AuthState) : AuthState :=
  { st with
    storage := (st.storage.removeItem "access_token").removeItem "refresh_token"
    accessToken := none
    refreshToken := none
    user := none }

/-- `verifySession` of `AuthContext.tsx` (the bootstrap effect): if the
stored access token is truthy, fetch the profile (`meRes` is the outcome
`GET /users/me` would have); on failure clear the session; in every branch
finish by setting `isLoading` to `false`. -/
def verifySession (meRes : Except ApiError UserResponse) (st : AuthState) :
    AuthState × List Ev :=
  let storedToken := st.storage.getItem "access_token"
  if jsTruthy storedToken then
    match meRes with
    | .ok userData =>
        ({ st with user := some userData, isLoading := false },
         [Ev.api ApiCall.getMe, Ev.setIsLoading false])
    | .error _ =>
        ({ clearAuth st with isLoading := false },
         [Ev.api ApiCall.getMe, Ev.setIsLoading false])
  else
    ({ st with isLoading := false }, [Ev.setIsLoading false])

/-- `login` of `AuthContext.tsx`: `loginUser`, then `saveTokens`, then
`getMe`, then set the user.  An exception at any step aborts the rest and
rejects the whole action. -/
def loginAction (loginRes : Except ApiError TokenResponse)
    (meRes : Except ApiError UserResponse)
    (data : LoginRequest) (st : AuthState) : ActionOut Unit :=
  match loginRes with
  | .error e => ⟨.error e, st, [Ev.api (ApiCall.loginUser data)]⟩
  | .ok tokens =>
      let st1 := saveTokens st tokens.access_token tokens.refresh_token
      match meRes with
      | .error e =>
          ⟨.error e, st1, [Ev.api (ApiCall.loginUser data), Ev.api ApiCall.getMe]⟩
      | .ok userData =>
          ⟨.ok (), { st1 with user := some userData },
           [Ev.api (ApiCall.loginUser data), Ev.api ApiCall.getMe]⟩

/-- `register` of `AuthContext.tsx`: `registerUser`, then on success an
automatic `login` with the same email and password. -/
def registerAction (regRes : Except ApiError UserResponse)
    (loginRes : Except ApiError TokenResponse)
    (meRes : Except ApiError UserResponse)
    (data : RegisterRequest) (st : AuthState) : ActionOut Unit :=
  match regRes with
  | .error e => ⟨.error e, st, [Ev.api (ApiCall.registerUser data)]⟩
  | .ok _created =>
      let out := loginAction loginRes meRes ⟨data.email, data.password⟩ st
      ⟨out.result, out.state, Ev.api (ApiCall.registerUser data) :: out.trace⟩

/-- `logout` of `AuthContext.tsx`: just `clearAuth`; no event is produced
(in particular no API call). -/
def logoutAction (st : AuthState) : AuthState × List Ev :=
  (clearAuth st, [])

/-- `changePassword` of `AuthContext.tsx`: awaits the API call and touches
no session state. -/
def changePasswordAction (res : Except ApiError MessageResponse)
    (data : ChangePasswordRequest) (st : AuthState) : ActionOut Unit :=
  match res with
  | .error e => ⟨.error e, st, [Ev.api (ApiCall.changePassword data)]⟩
  | .ok _m => ⟨.ok (), st, [Ev.api (ApiCall.changePassword data)]⟩

/-- `forgotPassword` of `AuthContext.tsx`: awaits the API call and touches
no session state. -/
def forgotPasswordAction (res : Except ApiError MessageResponse)
    (data : ForgotPasswordRequest) (st : AuthState) : ActionOut Unit :=
  match res with
  | .error e => ⟨.error e, st, [Ev.api (ApiCall.forgotPassword data)]⟩
  | .ok _m => ⟨.ok (), st, [Ev.api (ApiCall.forgotPassword data)]⟩

/-- `resetPasswordAction` of `AuthContext.tsx`: awaits the API call and
touches no session state. -/
def resetPasswordAction (res : Except ApiError MessageResponse)
    (data : ResetPasswordRequest) (st : AuthState) : ActionOut Unit :=
  match res with
  | .error e => ⟨.error e, st, [Ev.api (ApiCall.resetPassword data)]⟩
  | .ok _m => ⟨.ok (), st, [Ev.api (ApiCall.resetPassword data)]⟩

/-- The context value the provider exposes to consumers.  `isAuthenticated`
is the derived `!!user && !!accessToken` of the source: object truthiness
for `user`, string truthiness for `accessToken`. -/
structure AuthContextValue where
  user : Option UserResponse
  accessToken : Option String
  refreshToken : Option String
  isAuthenticated : Bool
  isLoading : Bool
deriving DecidableEq, Repr

/-- The memoized `value` object of `AuthContext.tsx`, recomputed from the
provider state on every render (hence after every action). -/
def contextValue (st : AuthState) : AuthContextValue :=
  { user := st.user
    accessToken := st.accessToken
    refreshToken := st.refreshToken
    isAuthenticated := st.user.isSome && jsTruthy st.accessToken
    isLoading := st.isLoading }

/-! ### Interceptors of `api/axios.ts` -/

/-- The slice of an Axios request config the request interceptor touches:
the `Authorization` header (absent unless someone set it). -/
structure RequestConfig where
  authorization : Option String
deriving DecidableEq, Repr

/-- The request interceptor of `api/axios.ts`: read
`sessionStorage.getItem("access_token")`; if it is truthy, set
`Authorization` to `Bearer ` followed by the token; otherwise leave the
config untouched. -/
def requestInterceptor (storage : SessionStorage) (config : RequestConfig) :
    RequestConfig :=
  match storage.getItem "access_token" with
  | some token =>
      if !token.isEmpty then
        { config with authorization := some ("Bearer " ++ token) }
      else config
  | none => config

/-- The `data.detail` field of an error response body, as the response
interceptor case-analyses it: a Pydantic 422 array of `{msg}` objects, a
plain string, or anything else. -/
inductive ErrorDetail where
  | list (msgs : List String)
  | str (s : String)
  | other
deriving DecidableEq, Repr

/-- An HTTP error response: status code plus the body's `detail`. -/
structure HttpErrorResponse where
  status : Nat
  detail : ErrorDetail
deriving DecidableEq, Repr

/-- An Axios error as the response interceptor sees it: `response` is
present when the server answered with an error status; `requestSent` is
true when the request went out but no response arrived. -/
structure AxiosError where
  message : String
  response : Option HttpErrorResponse
  requestSent : Bool
deriving DecidableEq, Repr

/-- What the response error interceptor can do with an error: reject the
(possibly re-messaged) error, or issue a new API call. -/
inductive InterceptorOutcome where
  | reject (e : AxiosError)
  | issue (c : ApiCall)
deriving DecidableEq, Repr

/-- The response error interceptor of `api/axios.ts`: on a 422 with an
array `detail`, join the `msg` fields with `". "`; on a string `detail`,
use it as the message; with no response but a sent request, use a generic
connectivity message; in every case reject the error. -/
def responseErrorInterceptor (e : AxiosError) : InterceptorOutcome :=
  match e.response with
  | some resp =>
      match resp.detail with
      | .list msgs =>
          if resp.status = 422 then
            .reject { e with message := String.intercalate ". " msgs }
          else .reject e
      | .str s => .reject { e with message := s }
      | .other => .reject e
  | none =>
      if e.requestSent then
        .reject { e with message := "No se pudo conectar con el servidor" }
      else .reject e

/-! ### Route guard (`components/ProtectedRoute.tsx`) -/

/-- What `ProtectedRoute` renders: the loading spinner, a `<Navigate>`
redirect, or its protected children. -/
inductive Render where
  | spinner
  | redirect (dest : String) (replaceHistory : Bool)
  | content
deriving DecidableEq, Repr

/-- `ProtectedRoute` of `components/ProtectedRoute.tsx`: spinner while
`isLoading`; `<Navigate to="/login" replace />` when not authenticated;
otherwise the children. -/
def ProtectedRoute (isAuthenticated isLoading : Bool) : Render :=
  if isLoading then Render.spinner
  else if !isAuthenticated then Render.redirect "/login" true
  else Render.content

/-! ### Client-side password validators

The password-strength branch of `validate` in `RegisterPage.tsx`,
`ChangePasswordPage.tsx`, and `ResetPasswordPage.tsx`: the chained
`if / else if` on `length < 8`, `/[A-Z]/`, `/[a-z]/`, `/\d/`.  The three
regexes denote the ASCII classes that `Char.isUpper`, `Char.isLower`,
`Char.isDigit` decide. -/

/-- Password-strength branch of `validate` in `RegisterPage.tsx` (the error
set under `newErrors.password`, `none` when the password passes). -/
def registerPasswordError (password : String) : Option String :=
  if password.length < 8 then some "Mínimo 8 caracteres"
  else if !password.toList.any Char.isUpper then some "Debe incluir al menos una mayúscula"
  else if !password.toList.any Char.isLower then some "Debe incluir al menos una minúscula"
  else if !password.toList.any Char.isDigit then some "Debe incluir al menos un número"
  else none

/-- Password-strength branch of `validate` in `ChangePasswordPage.tsx`
(the error set under `newErrors.new_password`). -/
def changePasswordError (password : String) : Option String :=
  if password.length < 8 then some "Mínimo 8 caracteres"
  else if !password.toList.any Char.isUpper then some "Debe incluir al menos una mayúscula"
  else if !password.toList.any Char.isLower then some "Debe incluir al menos una minúscula"
  else if !password.toList.any Char.isDigit then some "Debe incluir al menos un número"
  else none

/-- Password-strength branch of `validate` in `ResetPasswordPage.tsx`
(the error set under `newErrors.new_password`). -/
def resetPasswordError (password : String) : Option String :=
  if password.length < 8 then some "Mínimo 8 caracteres"
  else if !password.toList.any Char.isUpper then some "Debe incluir al menos una mayúscula"
  else if !password.toList.any Char.isLower then some "Debe incluir al menos una minúscula"
  else if !password.toList.any Char.isDigit then some "Debe incluir al menos un número"
  else none

/-- The password strength rule in the spec's words: length at least 8, at
least one uppercase letter, one lowercase letter, and one digit. -/
def passwordStrengthSpec (p : String) : Bool :=
  decide (8 ≤ p.length) && p.toList.any Char.isUpper && p.toList.any Char.isLower && p.toList.any Char.isDigit

/-- The half-update freedom asserted of the client session after a failed
login: if no current user is set, then no token is stored, in React state
or in sessionStorage. -/
def noTokensWithoutUser (st : AuthState) : Prop :=
  st.user = none →
    st.accessToken = none ∧ st.refreshToken = none
    ∧ st.storage.getItem "access_token" = none
    ∧ st.storage.getItem "refresh_token" = none

/-! ### Theorems -/

/-- C1 (counterexample): a concrete login run in which the server issues
tokens but the subsequent profile fetch fails.  The action rejects, yet the
issued tokens remain in React state and in sessionStorage while no user is
set — the claimed "no tokens remain stored without a current user" is false. -/
theorem login_profile_fetch_failure_cex :
    let out := loginAction (.ok ⟨"a.jwt", "r.jwt", "bearer"⟩)
      (.error ⟨"Network Error"⟩) ⟨"user@x.com", "Secret1x"⟩
      ⟨none, none, none, false, ⟨none, none⟩⟩
    out.result = .error ⟨"Network Error"⟩
    ∧ out.state.user = none
    ∧ out.state.accessToken = some "a.jwt"
    ∧ out.state.refreshToken = some "r.jwt"
    ∧ out.state.storage.getItem "access_token" = some "a.jwt"
    ∧ out.state.storage.getItem "refresh_token" = some "r.jwt"
    ∧ ¬ noTokensWithoutUser out.state := by
  refine ⟨rfl, rfl, rfl, rfl, rfl, rfl, ?_⟩
  unfold noTokensWithoutUser
  decide

/-- C1 (amended): when the profile fetch fails after token issuance, the
whole login action fails (the promise rejects with that error, so the UI
cannot report success) and the cached user is not updated, but the issued
tokens remain stored in React state and in sessionStorage. -/
theorem login_atomicity_amended (st : AuthState) (data : LoginRequest)
    (toks : TokenResponse) (e : ApiError) :
    let out := loginAction (.ok toks) (.error e) data st
    out.result = .error e
    ∧ out.state.user = st.user
    ∧ out.state.accessToken = some toks.access_token
    ∧ out.state.refreshToken = some toks.refresh_token
    ∧ out.state.storage.getItem "access_token" = some toks.access_token
    ∧ out.state.storage.getItem "refresh_token" = some toks.refresh_token
    ∧ out.trace = [Ev.api (ApiCall.loginUser data), Ev.api ApiCall.getMe] := by
  simp [loginAction, saveTokens, SessionStorage.setItem, SessionStorage.getItem]

/-- C2: the three client-side password validators accept a password iff it
has length at least 8 and contains an uppercase letter, a lowercase letter,
and a digit; they decide every input identically; a 7-character password is
rejected and an 8-character password with all three classes is accepted. -/
theorem password_validators_correct :
    (∀ p : String,
      (registerPasswordError p = none ↔ passwordStrengthSpec p = true)
      ∧ changePasswordError p = registerPasswordError p
      ∧ resetPasswordError p = registerPasswordError p)
    ∧ registerPasswordError "Abcde1f" ≠ none
    ∧ changePasswordError "Abcde1f" ≠ none
    ∧ resetPasswordError "Abcde1f" ≠ none
    ∧ registerPasswordError "Abcdefg1" = none
    ∧ changePasswordError "Abcdefg1" = none
    ∧ resetPasswordError "Abcdefg1" = none := by
  refine ⟨fun p => ⟨?_, rfl, rfl⟩, by decide, by decide, by decide,
    by decide, by decide, by decide⟩
  unfold registerPasswordError passwordStrengthSpec
  split_ifs with h1 h2 h3 h4 <;> simp_all

/-- C3: at a concrete 401 "expired access token" error, the response
interceptor of `api/axios.ts` only rewrites the message and rejects — it
issues no request at all, in particular no refresh; and no client session
action ever emits a call to the refresh endpoint. -/
theorem no_refresh_on_expired_token :
    responseErrorInterceptor
        ⟨"Request failed with status code 401",
         some ⟨401, .str "Could not validate credentials"⟩, true⟩
      = .reject ⟨"Could not validate credentials",
         some ⟨401, .str "Could not validate credentials"⟩, true⟩
    ∧ (∀ lr mr d st, traceCallsRefresh (loginAction lr mr d st).trace = false)
    ∧ (∀ rr lr mr d st, traceCallsRefresh (registerAction rr lr mr d st).trace = false)
    ∧ (∀ mr st, traceCallsRefresh (verifySession mr st).2 = false)
    ∧ (∀ st, traceCallsRefresh (logoutAction st).2 = false)
    ∧ (∀ r d st, traceCallsRefresh (changePasswordAction r d st).trace = false)
    ∧ (∀ r d st, traceCallsRefresh (forgotPasswordAction r d st).trace = false)
    ∧ (∀ r d st, traceCallsRefresh (resetPasswordAction r d st).trace = false) := by
  refine ⟨by decide, ?_, ?_, ?_, ?_, ?_, ?_, ?_⟩
  · intro lr mr d st
    cases lr <;> cases mr <;> simp [loginAction, traceCallsRefresh]
  · intro rr lr mr d st
    cases rr <;> cases lr <;> cases mr <;>
      simp [registerAction, loginAction, traceCallsRefresh]
  · intro mr st
    cases mr <;> simp [verifySession, traceCallsRefresh] <;> split_ifs <;> simp
  · intro st
    simp [logoutAction, traceCallsRefresh]
  · intro r d st
    cases r <;> simp [changePasswordAction, traceCallsRefresh]
  · intro r d st
    cases r <;> simp [forgotPasswordAction, traceCallsRefresh]
  · intro r d st
    cases r <;> simp [resetPasswordAction, traceCallsRefresh]

/-- C4 (counterexample): a bootstrap run whose sessionStorage holds the
empty string under `"access_token"`.  A persisted entry exists, yet
`if (!storedToken)` treats it as absent: no profile fetch occurs, refuting
the claimed "if one exists, the profile is fetched". -/
theorem bootstrap_empty_token_cex :
    let st : AuthState := ⟨none, some "", none, true, ⟨some "", none⟩⟩
    let out := verifySession (.ok ⟨"id1", "a@b.com", "Ana", true, "c", "u"⟩) st
    st.storage.getItem "access_token" = some ""
    ∧ out.2.countP Ev.isApi = 0
    ∧ out.1.user = none
    ∧ out.1 = { st with isLoading := false } := by
  refine ⟨rfl, ?_, rfl, rfl⟩
  decide

/-- C4 (amended): on bootstrap, `isLoading` is set to `false` exactly once
in every run; if the persisted access token is absent or empty (falsy), no
API call occurs and only `isLoading` changes; if a non-empty token is
persisted, exactly one API call (the profile fetch) occurs, and on fetch
failure the user, both tokens, and both sessionStorage entries are cleared. -/
theorem bootstrap_behaviour (meRes : Except ApiError UserResponse) (st : AuthState) :
    ((verifySession meRes st).2.count (Ev.setIsLoading false) = 1
      ∧ (verifySession meRes st).2.countP Ev.isApi =
          (if jsTruthy (st.storage.getItem "access_token") then 1 else 0)
      ∧ (verifySession meRes st).1.isLoading = false)
    ∧ (jsTruthy (st.storage.getItem "access_token") = false →
        (verifySession meRes st).1 = { st with isLoading := false })
    ∧ (∀ e : ApiError, jsTruthy (st.storage.getItem "access_token") = true →
        meRes = .error e →
        (verifySession meRes st).1.user = none
        ∧ (verifySession meRes st).1.accessToken = none
        ∧ (verifySession meRes st).1.refreshToken = none
        ∧ (verifySession meRes st).1.storage.getItem "access_token" = none
        ∧ (verifySession meRes st).1.storage.getItem "refresh_token" = none)
    ∧ (∀ u : UserResponse, jsTruthy (st.storage.getItem "access_token") = true →
        meRes = .ok u →
        (verifySession meRes st).1.user = some u
        ∧ (verifySession meRes st).2 = [Ev.api ApiCall.getMe, Ev.setIsLoading false]) := by
  refine ⟨⟨?_, ?_, ?_⟩, ?_, ?_, ?_⟩
  · cases meRes <;> simp [verifySession] <;> split_ifs <;> simp [List.count_cons]
  · cases meRes <;> simp [verifySession] <;> split_ifs <;> simp [Ev.isApi]
  · cases meRes <;> simp [verifySession] <;> split_ifs <;> simp
  · intro h
    cases meRes <;> simp [verifySession, h]
  · intro e h he
    subst he
    simp [SessionStorage.getItem] at h
    simp [verifySession, h, clearAuth, SessionStorage.removeItem, SessionStorage.getItem]
  · intro u h hu
    subst hu
    simp [SessionStorage.getItem] at h
    simp [verifySession, SessionStorage.getItem, h]

/-- C4 (witness for the amended theorem): both hypothesis branches hold at
concrete inputs — a failing fetch with a stored non-empty token clears the
user, and an absent token leaves only `isLoading` changed. -/
theorem bootstrap_behaviour_witness :
    (verifySession (.error ⟨"Could not validate credentials"⟩)
        ⟨none, some "tok", some "ref", true, ⟨some "tok", some "ref"⟩⟩).1.user = none
    ∧ (verifySession (.ok ⟨"id1", "a@b.com", "Ana", true, "c", "u"⟩)
        ⟨none, none, none, true, ⟨none, none⟩⟩).1
      = ⟨none, none, none, false, ⟨none, none⟩⟩ := by
  constructor
  · exact ((bootstrap_behaviour _ _).2.2.1 ⟨"Could not validate credentials"⟩
      (by decide) rfl).1
  · exact (bootstrap_behaviour _ _).2.1 (by decide)

/-- C5 (counterexample): a state reached by a successful login in which the
server returned an empty-string access token.  The user and the access
token are both non-null, yet the derived `isAuthenticated` is `false`,
because `!!accessToken` uses string truthiness, not a null check. -/
theorem isAuthenticated_empty_token_cex :
    let out := loginAction (.ok ⟨"", "r.jwt", "bearer"⟩)
      (.ok ⟨"id1", "a@b.com", "Ana", true, "c", "u"⟩)
      ⟨"a@b.com", "Secret1x"⟩ ⟨none, none, none, false, ⟨none, none⟩⟩
    out.result = .ok ()
    ∧ out.state.user ≠ none
    ∧ out.state.accessToken ≠ none
    ∧ (contextValue out.state).isAuthenticated = false := by
  refine ⟨rfl, ?_, ?_, rfl⟩ <;> decide

/-- C5 (amended): in every context value the provider exposes — the value
is recomputed from the state on every render, hence after every action —
`isAuthenticated` is `true` iff the user is non-null and the access token
is non-null and non-empty; the other fields are passed through unchanged. -/
theorem isAuthenticated_derived (st : AuthState) :
    ((contextValue st).isAuthenticated = true ↔
      (st.user ≠ none ∧ ∃ t : String, st.accessToken = some t ∧ t ≠ ""))
    ∧ (contextValue st).user = st.user
    ∧ (contextValue st).accessToken = st.accessToken
    ∧ (contextValue st).refreshToken = st.refreshToken
    ∧ (contextValue st).isLoading = st.isLoading := by
  obtain ⟨u, a, r, l, sto⟩ := st
  refine ⟨?_, rfl, rfl, rfl, rfl⟩
  cases u <;> cases a <;>
    simp [contextValue, jsTruthy, ← String.isEmpty_iff]

/-- C6: logout nulls the user and both tokens, removes both sessionStorage
entries, and produces no event at all — in particular no network request. -/
theorem logout_local_only (st : AuthState) :
    (logoutAction st).1.accessToken = none
    ∧ (logoutAction st).1.refreshToken = none
    ∧ (logoutAction st).1.user = none
    ∧ (logoutAction st).1.storage.getItem "access_token" = none
    ∧ (logoutAction st).1.storage.getItem "refresh_token" = none
    ∧ (logoutAction st).2 = [] := by
  refine ⟨rfl, rfl, rfl, ?_, ?_, rfl⟩ <;>
    simp [logoutAction, clearAuth, SessionStorage.removeItem, SessionStorage.getItem]

/-- C7: while `isLoading` is true the route guard renders only the spinner
(never the protected children); once loading completes, an unauthenticated
state yields a replace-redirect to `/login`, and the children are rendered
iff `isAuthenticated` is true with loading finished. -/
theorem protected_route_guard :
    (∀ a : Bool, ProtectedRoute a true = Render.spinner)
    ∧ ProtectedRoute false false = Render.redirect "/login" true
    ∧ ProtectedRoute true false = Render.content
    ∧ (∀ a l : Bool, (ProtectedRoute a l = Render.content ↔ l = false ∧ a = true)) := by
  decide

/-- C8: the changePassword, forgotPassword and resetPassword actions leave
the whole session state — user, both tokens, and both sessionStorage
entries — unchanged, whether the underlying call succeeds or fails. -/
theorem password_actions_preserve_session (st : AuthState)
    (r1 r2 r3 : Except ApiError MessageResponse)
    (d1 : ChangePasswordRequest) (d2 : ForgotPasswordRequest)
    (d3 : ResetPasswordRequest) :
    (changePasswordAction r1 d1 st).state = st
    ∧ (forgotPasswordAction r2 d2 st).state = st
    ∧ (resetPasswordAction r3 d3 st).state = st :=
  ⟨by cases r1 <;> rfl, by cases r2 <;> rfl, by cases r3 <;> rfl⟩

/-- C9 (counterexample): sessionStorage holding the empty string under
`"access_token"`.  A token entry is stored, yet `if (token)` is falsy, so
the interceptor attaches no Authorization header — refuting the claimed
"if an access token is stored, the request carries Bearer plus that token". -/
theorem auth_header_empty_token_cex :
    (⟨some "", none⟩ : SessionStorage).getItem "access_token" = some ""
    ∧ (requestInterceptor ⟨some "", none⟩ ⟨none⟩).authorization = none
    ∧ (requestInterceptor ⟨some "", none⟩ ⟨none⟩).authorization ≠ some ("Bearer " ++ "") := by
  refine ⟨rfl, rfl, ?_⟩
  decide

/-- C9 (amended): if a non-empty access token is stored under
`"access_token"`, the interceptor sets the Authorization header to
`Bearer ` followed by exactly that token; if the stored value is absent or
empty (falsy), the request config is left unchanged. -/
theorem auth_header_attachment (s : SessionStorage) (c : RequestConfig) (t : String) :
    (s.getItem "access_token" = some t → t ≠ "" →
      (requestInterceptor s c).authorization = some ("Bearer " ++ t))
    ∧ (jsTruthy (s.getItem "access_token") = false → requestInterceptor s c = c) := by
  constructor
  · intro h ht
    have hf : t.isEmpty = false := by
      cases hi : t.isEmpty with
      | false => rfl
      | true => exact absurd ((String.isEmpty_iff t).mp hi) ht
    simp [requestInterceptor, h, hf]
  · intro h
    unfold requestInterceptor
    cases hh : s.getItem "access_token" with
    | none => rfl
    | some tok =>
        rw [hh] at h
        simp [jsTruthy] at h
        simp [h]

/-- C9 (witness): the amended theorem applied at a stored token `"tok123"`
and at an empty storage. -/
theorem auth_header_attachment_witness :
    (requestInterceptor ⟨some "tok123", none⟩ ⟨none⟩).authorization
      = some ("Bearer " ++ "tok123")
    ∧ requestInterceptor ⟨none, none⟩ ⟨none⟩ = ⟨none⟩ := by
  constructor
  · exact (auth_header_attachment ⟨some "tok123", none⟩ ⟨none⟩ "tok123").1 rfl (by decide)
  · exact (auth_header_attachment ⟨none, none⟩ ⟨none⟩ "x").2 (by decide)

/-- C10: a successful register action issues the registration call and then
an automatic login with the same email and password, ending with the
profile loaded and both tokens stored in state and sessionStorage; a failed
registration issues no login call and leaves the state untouched. -/
theorem register_auto_login (st : AuthState) (data : RegisterRequest)
    (created u : UserResponse) (toks : TokenResponse) (e : ApiError)
    (lr : Except ApiError TokenResponse) (mr : Except ApiError UserResponse) :
    (let out := registerAction (.ok created) (.ok toks) (.ok u) data st
     out.result = .ok ()
     ∧ out.trace = [Ev.api (ApiCall.registerUser data),
         Ev.api (ApiCall.loginUser ⟨data.email, data.password⟩), Ev.api ApiCall.getMe]
     ∧ out.state.user = some u
     ∧ out.state.accessToken = some toks.access_token
     ∧ out.state.refreshToken = some toks.refresh_token
     ∧ out.state.storage.getItem "access_token" = some toks.access_token
     ∧ out.state.storage.getItem "refresh_token" = some toks.refresh_token)
    ∧ (let out := registerAction (.error e) lr mr data st
       out.result = .error e
       ∧ out.state = st
       ∧ out.trace = [Ev.api (ApiCall.registerUser data)]) := by
  refine ⟨⟨rfl, rfl, rfl, rfl, rfl, ?_, ?_⟩, rfl, rfl, rfl⟩ <;>
    simp [registerAction, loginAction, saveTokens, SessionStorage.setItem,
      SessionStorage.getItem]
